import Mathlib

/-!
Verification development for the CoachKey2 fitness-tracking application.

The repository's `App.tsx` contains two concatenated variants of the
application: a legacy self-contained variant (modelled in namespace `App1`)
and the current variant that imports the shared `utils/validation.ts`,
`types/index.ts` and service modules (modelled in namespace `App2`).
Definitions are shallow embeddings of the TypeScript source:
JavaScript numbers are modelled as exact rationals (`ℚ`), calendar days as
integers (ISO date strings compare like day indices), strings as Lean
strings, and `undefined`/`null` as `Option`.  Purely presentational fields
(activity logs, avatars, preferences, chart label formatting) are omitted;
no claim inspects them.  Generated values (`uid()`, `new Date()`) are
passed as explicit parameters.
-/

/-- JavaScript `Math.round`: round to nearest, ties toward positive
infinity, i.e. `⌊x + 1/2⌋`. -/
def jsRound (q : ℚ) : ℤ := ⌊q + (1 : ℚ) / 2⌋

/-- ASCII uppercase letter test, the character class `[A-Z]`. -/
def isUpperChar (c : Char) : Bool := 'A' ≤ c && c ≤ 'Z'

/-- ASCII lowercase letter test, the character class `[a-z]`. -/
def isLowerChar (c : Char) : Bool := 'a' ≤ c && c ≤ 'z'

/-- ASCII digit test, the character class `[0-9]`. -/
def isDigitChar (c : Char) : Bool := '0' ≤ c && c ≤ '9'

/-- ASCII alphanumeric test, the character class `[A-Za-z0-9]`. -/
def isAlnumChar (c : Char) : Bool := isUpperChar c || isLowerChar c || isDigitChar c

/-- `/[A-Z]/.test(password)` from `utils/validation.ts`. -/
def hasUpper (password : String) : Bool := password.data.any isUpperChar

/-- `/[a-z]/.test(password)` from `utils/validation.ts`. -/
def hasLower (password : String) : Bool := password.data.any isLowerChar

/-- `/[0-9]/.test(password)` from `utils/validation.ts`. -/
def hasDigit (password : String) : Bool := password.data.any isDigitChar

/-- `/[^A-Za-z0-9]/.test(password)` from `utils/validation.ts`. -/
def hasSpecial (password : String) : Bool := password.data.any (fun c => !(isAlnumChar c))

/-- A `{field, message}` validation error, `types/index.ts`. -/
structure ValidationError where
  field : String
  message : String
deriving DecidableEq

/-- Result of `getPasswordStrength`, `utils/validation.ts` lines 137-159. -/
structure PasswordStrength where
  score : Nat
  feedback : List String
deriving DecidableEq

/-- `getPasswordStrength` from `utils/validation.ts` lines 137-159: six
sequential checks each incrementing the score, the first five pushing a
feedback tip when unmet. -/
def getPasswordStrength (password : String) : PasswordStrength :=
  { score :=
      (if password.length ≥ 8 then 1 else 0) +
      (if hasUpper password then 1 else 0) +
      (if hasLower password then 1 else 0) +
      (if hasDigit password then 1 else 0) +
      (if hasSpecial password then 1 else 0) +
      (if password.length ≥ 12 then 1 else 0),
    feedback :=
      (if password.length ≥ 8 then [] else ["Use at least 8 characters"]) ++
      (if hasUpper password then [] else ["Add uppercase letters"]) ++
      (if hasLower password then [] else ["Add lowercase letters"]) ++
      (if hasDigit password then [] else ["Add numbers"]) ++
      (if hasSpecial password then [] else ["Add special characters"]) }

/-- `isValidPassword` from `utils/validation.ts` lines 133-135:
`passwordSchema.safeParse(password).success`, i.e. all five chained rules
of `passwordSchema` (lines 5-11) hold. -/
def isValidPassword (password : String) : Bool :=
  decide (password.length ≥ 8) && hasUpper password && hasLower password &&
    hasDigit password && hasSpecial password

/-- C9: `isValidPassword` agrees with emptiness of the strength scorer's
feedback: both are the conjunction of the same five predicates. -/
theorem claim_C9_validator_matches_scorer (p : String) :
    isValidPassword p = true ↔ (getPasswordStrength p).feedback = [] := by
  unfold isValidPassword getPasswordStrength
  by_cases h1 : p.length ≥ 8 <;>
    by_cases h2 : hasUpper p <;>
      by_cases h3 : hasLower p <;>
        by_cases h4 : hasDigit p <;>
          by_cases h5 : hasSpecial p <;>
            simp [h1, h2, h3, h4, h5]

/-- C6: the score is the number of satisfied predicates among the six
(length≥8, upper, lower, digit, special, length≥12), hence at most 6; the
feedback has one tip per unmet predicate among the first five; `"abc"`
scores 1 with 4 tips and `"Abcdefg1!"` scores 5. -/
theorem claim_C6_password_strength (p : String) :
    (getPasswordStrength p).score =
      ([decide (p.length ≥ 8), hasUpper p, hasLower p, hasDigit p,
        hasSpecial p, decide (p.length ≥ 12)].countP (· = true)) ∧
    (getPasswordStrength p).score ≤ 6 ∧
    (getPasswordStrength p).feedback.length =
      ([decide (p.length ≥ 8), hasUpper p, hasLower p, hasDigit p,
        hasSpecial p].countP (· = false)) ∧
    (getPasswordStrength "abc").score = 1 ∧
    (getPasswordStrength "abc").feedback.length = 4 ∧
    (getPasswordStrength "Abcdefg1!").score = 5 := by
  refine ⟨?_, ?_, ?_, by decide, by decide, by decide⟩
  · unfold getPasswordStrength
    by_cases h1 : p.length ≥ 8 <;>
      by_cases h2 : hasUpper p <;>
        by_cases h3 : hasLower p <;>
          by_cases h4 : hasDigit p <;>
            by_cases h5 : hasSpecial p <;>
              by_cases h6 : p.length ≥ 12 <;>
                simp [h1, h2, h3, h4, h5, h6, List.countP_cons]
  · unfold getPasswordStrength
    dsimp only
    split <;> split <;> split <;> split <;> split <;> split <;> omega
  · unfold getPasswordStrength
    by_cases h1 : p.length ≥ 8 <;>
      by_cases h2 : hasUpper p <;>
        by_cases h3 : hasLower p <;>
          by_cases h4 : hasDigit p <;>
            by_cases h5 : hasSpecial p <;>
              simp [h1, h2, h3, h4, h5, List.countP_cons]

/-! ### Sanitization utilities (`utils/validation.ts` lines 161-169)

JavaScript numbers reaching `sanitizeNumber` are modelled by `JSFloat`:
`nan` for NaN, signed infinity, or an exact rational value (the claims do
not depend on binary floating-point rounding). -/

/-- A JavaScript number as seen by `sanitizeNumber`. -/
inductive JSFloat where
  | nan : JSFloat
  | inf : Bool → JSFloat
  | num : ℚ → JSFloat
deriving DecidableEq

/-- JavaScript `StrWhiteSpace` characters skipped by `parseFloat` and
removed at both ends by `String.prototype.trim`. -/
def isJsWhite (c : Char) : Bool :=
  c.val = 9 || c.val = 10 || c.val = 11 || c.val = 12 || c.val = 13 ||
    c.val = 32 || c.val = 0xA0 || c.val = 0x2028 || c.val = 0x2029 ||
    c.val = 0xFEFF

/-- Numeric value of a digit string, most significant first. -/
def digitsToNat (ds : List Char) : ℕ :=
  ds.foldl (fun n c => 10 * n + (c.toNat - '0'.toNat)) 0

/-- Scale a mantissa by a signed power of ten (kept in `ℕ`-powers so that
concrete inputs evaluate by kernel reduction). -/
def scaleByPow10 (m : ℚ) (e : ℤ) : ℚ :=
  if 0 ≤ e then m * (10 : ℚ) ^ e.toNat else m / (10 : ℚ) ^ (-e).toNat

/-- Syntactic decomposition of the number prefix recognised by
`parseFloat` (sign, integer digits, fraction digits, exponent); kept free
of rational arithmetic so concrete inputs evaluate by `decide`. -/
structure ParsedNumber where
  isInf : Bool
  hasDigits : Bool
  pos : Bool
  intDs : List Char
  fracDs : List Char
  expVal : ℤ
deriving DecidableEq

/-- The lexical phase of ECMAScript `parseFloat`: skip leading whitespace,
read an optional sign, then the longest prefix that is `Infinity`, digits
with an optional fraction, or a bare fraction, each followed by an
optional well-formed exponent. -/
def parseFloatSyntax (s : String) : ParsedNumber :=
  let cs0 := s.data.dropWhile isJsWhite
  let (pos, cs) :=
    match cs0 with
    | '+' :: rest => (true, rest)
    | '-' :: rest => (false, rest)
    | rest => (true, rest)
  if cs.take 8 = "Infinity".data then ⟨true, false, pos, [], [], 0⟩
  else
    let (intDs, cs1) := cs.span isDigitChar
    let (fracDs, cs2) :=
      match cs1 with
      | '.' :: rest => rest.span isDigitChar
      | _ => ([], cs1)
    if intDs = [] ∧ fracDs = [] then ⟨false, false, pos, [], [], 0⟩
    else
      let expVal : ℤ :=
        match cs2 with
        | c :: rest =>
          if c = 'e' ∨ c = 'E' then
            let (esign, rest2) :=
              match rest with
              | '+' :: r => ((1 : ℤ), r)
              | '-' :: r => ((-1 : ℤ), r)
              | r => ((1 : ℤ), r)
            let eDs := (rest2.span isDigitChar).1
            if eDs = [] then 0 else esign * (digitsToNat eDs : ℤ)
          else 0
        | [] => 0
      ⟨false, true, pos, intDs, fracDs, expVal⟩

/-- ECMAScript `parseFloat`: the numeric value of the recognised prefix,
`nan` when no numeric prefix exists. -/
def jsParseFloat (s : String) : JSFloat :=
  let p := parseFloatSyntax s
  if p.isInf then JSFloat.inf p.pos
  else if p.hasDigits then
    JSFloat.num (scaleByPow10
      ((if p.pos then 1 else -1) *
        ((digitsToNat p.intDs : ℚ) +
          (digitsToNat p.fracDs : ℚ) / (10 : ℚ) ^ p.fracDs.length))
      p.expVal)
  else JSFloat.nan

/-- The local `num` of `sanitizeNumber`: `typeof input === 'string' ?
parseFloat(input) : input`. -/
def toNumber (input : String ⊕ JSFloat) : JSFloat :=
  match input with
  | Sum.inl s => jsParseFloat s
  | Sum.inr n => n

/-- `sanitizeNumber` from `utils/validation.ts` lines 166-169:
`isNaN(num) ? null : num`. -/
def sanitizeNumber (input : String ⊕ JSFloat) : Option JSFloat :=
  match toNumber input with
  | JSFloat.nan => none
  | n => some n

/-- `sanitizeString` from `utils/validation.ts` lines 162-164:
`input.trim().replace(/[<>]/g, '')`. -/
def sanitizeString (input : String) : String :=
  ⟨(((input.data.dropWhile isJsWhite).reverse.dropWhile isJsWhite).reverse).filter
      (fun c => !(c = '<' || c = '>'))⟩

/-- C8: `sanitizeNumber` returns the float-parsed value, and `null`
exactly when that parse (or the number passed in) is NaN; in particular
`"12.5" ↦ 12.5`, `"abc" ↦ null`, `"" ↦ null`. -/
theorem claim_C8_sanitizeNumber :
    sanitizeNumber (Sum.inl "12.5") = some (JSFloat.num ((25 : ℚ) / 2)) ∧
    sanitizeNumber (Sum.inl "abc") = none ∧
    sanitizeNumber (Sum.inl "") = none ∧
    (∀ input : String ⊕ JSFloat,
      (sanitizeNumber input = none ↔ toNumber input = JSFloat.nan) ∧
      (sanitizeNumber input = none ∨ sanitizeNumber input = some (toNumber input))) := by
  refine ⟨?_, ?_, ?_, fun input => ?_⟩
  · have hp : parseFloatSyntax "12.5" = ⟨false, true, true, ['1', '2'], ['5'], 0⟩ := by decide
    have hi : digitsToNat ['1', '2'] = 12 := by decide
    have hf : digitsToNat ['5'] = 5 := by decide
    simp only [sanitizeNumber, toNumber, jsParseFloat, hp, hi, hf]
    norm_num [scaleByPow10]
  · have hp : parseFloatSyntax "abc" = ⟨false, false, true, [], [], 0⟩ := by decide
    simp [sanitizeNumber, toNumber, jsParseFloat, hp]
  · have hp : parseFloatSyntax "" = ⟨false, false, true, [], [], 0⟩ := by decide
    simp [sanitizeNumber, toNumber, jsParseFloat, hp]
  · cases h : toNumber input <;> simp [sanitizeNumber, h]

/-! ### Data model (`types/index.ts`)

ISO date strings are modelled as integer day indices; opaque timestamp
strings stay strings.  `Option` models TypeScript optional fields and the
possibility that a `Partial` create input omitted a field.  Presentational
fields (activity logs, avatars, preferences, photos, notes, embedded
client lists, chart label strings) are omitted; no claim inspects them. -/

/-- `UserRole` from `types/index.ts`. -/
inductive UserRole where
  | trainer : UserRole
  | client : UserRole
deriving DecidableEq

/-- `User` from `types/index.ts` (claim-relevant fields). -/
structure User where
  id : String
  role : UserRole
  name : String
  email : String
  password : Option String
  trainerId : Option String
  phone : Option String
  dateJoined : Option String
  isActive : Option Bool
  lastLogin : Option String
deriving DecidableEq

/-- `WorkoutExercise` from `types/index.ts`, restricted to the fields of
`workoutExerciseSchema`. -/
structure WorkoutExercise where
  name : String
  sets : ℚ
  reps : ℚ
  weight : Option ℚ
  duration : Option ℚ
  restTime : Option ℚ
deriving DecidableEq

/-- `'beginner' | 'intermediate' | 'advanced'`. -/
inductive Difficulty where
  | beginner : Difficulty
  | intermediate : Difficulty
  | advanced : Difficulty
deriving DecidableEq

/-- `Workout` from `types/index.ts`.  `name` is `Option` because the
legacy create path accepts a `Partial` without validating presence. -/
structure Workout where
  id : String
  name : Option String
  date : ℤ
  exercises : List WorkoutExercise
  completed : Bool
  clientId : Option String
  trainerId : Option String
  notes : Option String
  difficulty : Option Difficulty
  category : Option String
  createdAt : Option String
  updatedAt : Option String
deriving DecidableEq

/-- `'breakfast' | 'lunch' | 'dinner' | 'snack'`. -/
inductive MealType where
  | breakfast : MealType
  | lunch : MealType
  | dinner : MealType
  | snack : MealType
deriving DecidableEq

/-- `Meal` from `types/index.ts` (claim-relevant fields). -/
structure Meal where
  id : String
  name : Option String
  type : MealType
  calories : ℚ
  protein : ℚ
  carbs : ℚ
  fat : ℚ
  date : ℤ
  userId : Option String
deriving DecidableEq

/-- `Message` from `types/index.ts` (claim-relevant fields). -/
structure Message where
  id : String
  senderId : Option String
  receiverId : Option String
  content : Option String
  timestamp : String
  read : Bool
deriving DecidableEq

/-- `ProgressEntry` from `types/index.ts` (claim-relevant fields). -/
structure ProgressEntry where
  id : String
  date : ℤ
  weight : Option ℚ
  bodyFat : Option ℚ
  muscle : Option ℚ
  userId : Option String
deriving DecidableEq

/-- The `appData` snapshot held by `DataProvider`:
`{ workouts, meals, messages, progress }`. -/
structure AppData where
  workouts : List Workout
  meals : List Meal
  messages : List Message
  progress : List ProgressEntry
deriving DecidableEq

/-- `Partial<Workout>` as passed to `addWorkout`/`updateWorkout`. -/
structure WorkoutInput where
  id : Option String
  name : Option String
  date : Option ℤ
  exercises : Option (List WorkoutExercise)
  completed : Option Bool
  clientId : Option String
  trainerId : Option String
  notes : Option String
  difficulty : Option Difficulty
  category : Option String
  createdAt : Option String
  updatedAt : Option String
deriving DecidableEq

/-- `Partial<Meal>` as passed to `logMeal`/`updateMeal`.  The numeric
core fields are kept required: every call site supplies them and the
stored `Meal` type requires them. -/
structure MealInput where
  id : Option String
  name : Option String
  type : MealType
  calories : ℚ
  protein : ℚ
  carbs : ℚ
  fat : ℚ
  date : Option ℤ
  userId : Option String
deriving DecidableEq

/-- `Partial<Message>` as passed to `sendMessage`. -/
structure MessageInput where
  id : Option String
  senderId : Option String
  receiverId : Option String
  content : Option String
  timestamp : Option String
  read : Option Bool
deriving DecidableEq

/-- `Partial<ProgressEntry>` as passed to `addProgressEntry` /
`updateProgressEntry`. -/
structure ProgressInput where
  id : Option String
  date : Option ℤ
  weight : Option ℚ
  bodyFat : Option ℚ
  muscle : Option ℚ
  userId : Option String
deriving DecidableEq

/-- JavaScript `toLowerCase` (ASCII range, as exercised by the code). -/
def jsToLower (s : String) : String := ⟨s.data.map Char.toLower⟩

/-- The trailing seven calendar days, oldest first:
`Array.from({length: 7}, (_, i) => ...getDate() - i...).reverse()`
(`App.tsx`, Dashboard and Stats pages of both variants). -/
def last7Days (today : ℤ) : List ℤ :=
  ((List.range 7).map (fun i => today - (i : ℤ))).reverse

/-- Role-appropriate ownership used by the current variant's dashboards:
`user.role === 'trainer' ? w.trainerId === user.id : w.clientId === user.id`. -/
def ownsWorkout (user : User) (w : Workout) : Bool :=
  match user.role with
  | UserRole.trainer => w.trainerId = some user.id
  | UserRole.client => w.clientId = some user.id

/-- `meals.reduce((sum, meal) => sum + meal.calories, 0)`. -/
def sumCalories (meals : List Meal) : ℚ :=
  meals.foldl (fun sum meal => sum + meal.calories) 0

/-- `Math.round((completedWorkouts.length / totalWorkouts) * 100)` guarded
by `totalWorkouts > 0 ? ... : 0` — the completion-rate expression of the
Stats pages (legacy variant `App.tsx` 1466-1468; current variant 5021-5023
computes the same expression on the viewer's workouts). -/
def completionRate (workouts : List Workout) : ℤ :=
  if 0 < workouts.length then
    jsRound ((((workouts.filter (fun w => w.completed)).length : ℚ) /
      (workouts.length : ℚ)) * 100)
  else 0

namespace App1

/-!
The legacy application variant (`App.tsx` lines 1-2444): unvalidated
create operations and the Stats-page derivations cited by the claims.
-/

/-- Legacy `addWorkout` (`App.tsx` 338-342):
`{ id: uid(), date: today, completed: false, exercises: [], ...w }`
prepended to `workouts`; `uid()` and today's date are parameters. -/
def addWorkout (newId : String) (today : ℤ) (w : WorkoutInput) (d : AppData) :
    Workout × AppData :=
  let workout : Workout :=
    { id := w.id.getD newId
      name := w.name
      date := w.date.getD today
      exercises := w.exercises.getD []
      completed := w.completed.getD false
      clientId := w.clientId
      trainerId := w.trainerId
      notes := w.notes
      difficulty := w.difficulty
      category := w.category
      createdAt := w.createdAt
      updatedAt := w.updatedAt }
  (workout, { d with workouts := workout :: d.workouts })

/-- Legacy `logMeal` (`App.tsx` 350-354):
`{ id: uid(), date: today, ...meal }` prepended to `meals`. -/
def logMeal (newId : String) (today : ℤ) (meal : MealInput) (d : AppData) :
    Meal × AppData :=
  let newMeal : Meal :=
    { id := meal.id.getD newId
      name := meal.name
      type := meal.type
      calories := meal.calories
      protein := meal.protein
      carbs := meal.carbs
      fat := meal.fat
      date := meal.date.getD today
      userId := meal.userId }
  (newMeal, { d with meals := newMeal :: d.meals })

/-- Legacy `sendMessage` (`App.tsx` 362-366):
`{ id: uid(), timestamp: ..., read: false, ...message }` prepended to
`messages`. -/
def sendMessage (newId : String) (now : String) (message : MessageInput)
    (d : AppData) : Message × AppData :=
  let newMessage : Message :=
    { id := message.id.getD newId
      senderId := message.senderId
      receiverId := message.receiverId
      content := message.content
      timestamp := message.timestamp.getD now
      read := message.read.getD false }
  (newMessage, { d with messages := newMessage :: d.messages })

/-- Legacy `addProgressEntry` (`App.tsx` 371-375):
`{ id: uid(), date: today, ...entry }` prepended to `progress`. -/
def addProgressEntry (newId : String) (today : ℤ) (entry : ProgressInput)
    (d : AppData) : ProgressEntry × AppData :=
  let newEntry : ProgressEntry :=
    { id := entry.id.getD newId
      date := entry.date.getD today
      weight := entry.weight
      bodyFat := entry.bodyFat
      muscle := entry.muscle
      userId := entry.userId }
  (newEntry, { d with progress := newEntry :: d.progress })

/-- One row of the legacy Stats-page `weeklyActivity` chart; the `day`
field carries the calendar day the code turns into a weekday label. -/
structure DayActivity where
  day : ℤ
  workouts : ℕ
  calories : ℤ
  meals : ℕ
deriving DecidableEq

/-- Legacy Stats-page `weeklyActivity` (`App.tsx` 1478-1495): for each of
the trailing seven days, completed workouts on that day (no viewer
filter), the day's meals (no viewer filter), and
`Math.round(dayCalories / 100)`. -/
def weeklyActivity (today : ℤ) (workouts : List Workout) (meals : List Meal) :
    List DayActivity :=
  (last7Days today).map (fun date =>
    let dayWorkouts := workouts.filter (fun w => w.date = date && w.completed)
    let dayMeals := meals.filter (fun m => m.date = date)
    { day := date
      workouts := dayWorkouts.length
      calories := jsRound (sumCalories dayMeals / 100)
      meals := dayMeals.length })

/-- Legacy Stats-page `currentWeight` (`App.tsx` 1473):
`progress.length > 0 ? progress[0].weight : null`. -/
def currentWeight (progress : List ProgressEntry) : Option ℚ :=
  match progress with
  | [] => none
  | p :: _ => p.weight

/-- Legacy Stats-page `oldestWeight` (`App.tsx` 1474):
`progress.length > 1 ? progress[progress.length - 1].weight : null`. -/
def oldestWeight (progress : List ProgressEntry) : Option ℚ :=
  if 1 < progress.length then progress.getLast?.bind (fun p => p.weight)
  else none

/-- Legacy Stats-page `weightChange` (`App.tsx` 1475):
`currentWeight && oldestWeight ? currentWeight - oldestWeight : null`,
with JavaScript truthiness (a weight of `0` is falsy). -/
def weightChange (progress : List ProgressEntry) : Option ℚ :=
  match currentWeight progress, oldestWeight progress with
  | some a, some b => if a ≠ 0 ∧ b ≠ 0 then some (a - b) else none
  | _, _ => none

end App1

/-- Field-wise JavaScript object-spread patching: a field present in the
patch wins, otherwise the original value is kept. -/
def patchField {α : Type} (patch old : Option α) : Option α :=
  match patch with
  | some v => some v
  | none => old

/-- Split a character list at a separator (used for the `@` and `.`
structure of zod's email pattern). -/
def splitOnChar (sep : Char) : List Char → List (List Char)
  | [] => [[]]
  | c :: rest =>
    let r := splitOnChar sep rest
    if c = sep then [] :: r
    else
      match r with
      | [] => [[c]]
      | g :: gs => (c :: g) :: gs

/-- `..` occurring anywhere, zod's `(?!.*\.\.)` lookahead. -/
def hasDoubleDot : List Char → Bool
  | c1 :: c2 :: rest => (c1 = '.' && c2 = '.') || hasDoubleDot (c2 :: rest)
  | _ => false

/-- The email local-part character class `[A-Za-z0-9_'+\-\.]`. -/
def isEmailLocalChar (c : Char) : Bool :=
  isAlnumChar c || c = '_' || c = Char.ofNat 39 || c = '+' || c = '-' || c = '.'

/-- The final local-part character class `[A-Za-z0-9_+\-]`. -/
def isEmailLocalEnd (c : Char) : Bool :=
  isAlnumChar c || c = '_' || c = '+' || c = '-'

/-- An email local part: nonempty, allowed characters, not starting with
a dot, ending in the restricted class. -/
def localPartOk (lp : List Char) : Bool :=
  (match lp.reverse with
   | [] => false
   | lastc :: revInit => isEmailLocalEnd lastc && revInit.all isEmailLocalChar) &&
  (match lp.head? with
   | some c => !(c = '.')
   | none => false)

/-- A domain label `[A-Za-z0-9][A-Za-z0-9\-]*`. -/
def domainLabelOk (l : List Char) : Bool :=
  match l with
  | [] => false
  | c :: rest => isAlnumChar c && rest.all (fun x => isAlnumChar x || x = '-')

/-- A top-level domain `[A-Za-z]{2,}`. -/
def tldOk (t : List Char) : Bool :=
  decide (2 ≤ t.length) && t.all (fun c => isUpperChar c || isLowerChar c)

/-- zod's email pattern
`/^(?!\.)(?!.*\.\.)([A-Za-z0-9_'+\-\.]*)[A-Za-z0-9_+\-]@([A-Za-z0-9][A-Za-z0-9\-]*\.)+[A-Za-z]{2,}$/`
used by `z.string().email()` in `emailSchema`. -/
def zodEmailOk (s : String) : Bool :=
  !(hasDoubleDot s.data) &&
  (match splitOnChar '@' s.data with
   | [lp, domain] =>
     localPartOk lp &&
     (match (splitOnChar '.' domain).reverse with
      | [] => false
      | tld :: revLabels =>
        !(revLabels = []) && revLabels.all domainLabelOk && tldOk tld)
   | _ => false)

/-- Errors of `emailSchema` (`utils/validation.ts` 14-17):
`.email(...)` then `.min(1, ...)`. -/
def emailErrors (s : String) : List ValidationError :=
  (if zodEmailOk s then [] else [⟨"email", "Please enter a valid email address"⟩]) ++
  (if s.length < 1 then [⟨"email", "Email is required"⟩] else [])

/-- The `nameSchema` character class `[a-zA-Z\s'-]`. -/
def isNameChar (c : Char) : Bool :=
  isUpperChar c || isLowerChar c || isJsWhite c || c = Char.ofNat 39 || c = '-'

/-- Errors of `nameSchema` (`utils/validation.ts` 20-24):
`.min(2, ...)`, `.max(50, ...)`, `.regex(/^[a-zA-Z\s'-]+$/, ...)`. -/
def nameErrors (s : String) : List ValidationError :=
  (if s.length < 2 then [⟨"name", "Name must be at least 2 characters long"⟩] else []) ++
  (if 50 < s.length then [⟨"name", "Name must be less than 50 characters"⟩] else []) ++
  (if !(s.data = []) && s.data.all isNameChar then []
   else [⟨"name", "Name can only contain letters, spaces, hyphens, and apostrophes"⟩])

/-- Errors of `passwordSchema` (`utils/validation.ts` 5-11), all five
rules evaluated. -/
def passwordErrors (s : String) : List ValidationError :=
  (if s.length < 8 then [⟨"password", "Password must be at least 8 characters long"⟩] else []) ++
  (if hasUpper s then [] else [⟨"password", "Password must contain at least one uppercase letter"⟩]) ++
  (if hasLower s then [] else [⟨"password", "Password must contain at least one lowercase letter"⟩]) ++
  (if hasDigit s then [] else [⟨"password", "Password must contain at least one number"⟩]) ++
  (if hasSpecial s then [] else [⟨"password", "Password must contain at least one special character"⟩])

/-- The `phoneSchema` character class `[\d\s\-\(\)]`. -/
def isPhoneChar (c : Char) : Bool :=
  isDigitChar c || isJsWhite c || c = '-' || c = '(' || c = ')'

/-- The `phoneSchema` pattern `^\+?[\d\s\-\(\)]+$`. -/
def phoneRegexOk (s : String) : Bool :=
  match s.data with
  | '+' :: rest => !(rest = []) && rest.all isPhoneChar
  | cs => !(cs = []) && cs.all isPhoneChar

/-- Errors of `phoneSchema` (`utils/validation.ts` 27-31); the field is
optional, so absence yields no errors. -/
def phoneErrors : Option String → List ValidationError
  | none => []
  | some s =>
    (if phoneRegexOk s then [] else [⟨"phone", "Please enter a valid phone number"⟩]) ++
    (if s.length < 10 then [⟨"phone", "Phone number must be at least 10 digits"⟩] else [])

/-- The payload of `register` in the current variant (`App.tsx` 2684). -/
structure RegisterPayload where
  name : String
  email : String
  password : String
  confirmPassword : String
  phone : Option String
  role : UserRole
deriving DecidableEq

/-- `validateData(userRegistrationSchema, payload)`
(`utils/validation.ts` 34-44): field schemas in definition order, then the
`password === confirmPassword` refinement, which zod only runs when the
base object parse succeeded. -/
def validateRegistration (p : RegisterPayload) : List ValidationError :=
  let base :=
    nameErrors p.name ++ emailErrors p.email ++ passwordErrors p.password ++
      phoneErrors p.phone
  if base = [] then
    if p.password = p.confirmPassword then []
    else [⟨"confirmPassword", "Passwords don\x27t match"⟩]
  else base

/-- An authenticated session `{ userId, token }`. -/
structure Session where
  userId : String
  token : String
deriving DecidableEq

namespace App2

/-!
The current application variant (`App.tsx` lines 2444-6166): validated
mutators wired to `utils/validation.ts`.  The remote `db.*` mirror calls
are fire-and-forget placeholders with no effect on local state and are
not modelled.
-/

/-- `register` (`App.tsx` 2684-2725): validate, reject when some user's
stored email strictly equals the raw payload email, then prepend the new
user with a lower-cased email.  `uid()` and today's date are
parameters. -/
def register (newId : String) (todayStr : String) (p : RegisterPayload)
    (users : List User) : Except String (User × List User) :=
  match validateRegistration p with
  | e :: _ => Except.error e.message
  | [] =>
    if users.any (fun u => u.email = p.email) then Except.error "Email already exists"
    else
      let user : User :=
        { id := newId
          role := p.role
          name := sanitizeString p.name
          email := jsToLower p.email
          password := some p.password
          trainerId :=
            match p.role with
            | UserRole.client => (users.find? (fun u => u.role = UserRole.trainer)).map (fun u => u.id)
            | UserRole.trainer => none
          phone := p.phone.map sanitizeString
          dateJoined := some todayStr
          isActive := some true
          lastLogin := none }
      Except.ok (user, user :: users)

/-- `login` (`App.tsx` 2727-2748): missing-field guard, case-insensitive
email plus exact password match, deactivation guard (`!user.isActive`),
then a fresh session and a `lastLogin` stamp via `updateUser`. -/
def login (email password : String) (users : List User) (token now : String) :
    Except String (Session × List User) :=
  if email = "" || password = "" then
    Except.error "Email and password are required"
  else
    match users.find? (fun u =>
        jsToLower u.email = jsToLower email && u.password = some password) with
    | none => Except.error "Invalid credentials"
    | some user =>
      if user.isActive = some true then
        Except.ok ({ userId := user.id, token := token },
          users.map (fun x =>
            if x.id = user.id then { x with lastLogin := some now } else x))
      else Except.error "Account is deactivated"

/-- Per-exercise errors of `workoutExerciseSchema`
(`utils/validation.ts` 55-62), with zod's dotted paths. -/
def exerciseErrors (i : ℕ) (e : WorkoutExercise) : List ValidationError :=
  let fld := fun (f : String) => "exercises." ++ toString i ++ "." ++ f
  (if e.name.length < 1 then [⟨fld "name", "Exercise name is required"⟩] else []) ++
  (if 100 < e.name.length then [⟨fld "name", "Exercise name too long"⟩] else []) ++
  (if e.sets < 1 then [⟨fld "sets", "Sets must be at least 1"⟩] else []) ++
  (if 20 < e.sets then [⟨fld "sets", "Sets cannot exceed 20"⟩] else []) ++
  (if e.reps < 1 then [⟨fld "reps", "Reps must be at least 1"⟩] else []) ++
  (if 1000 < e.reps then [⟨fld "reps", "Reps cannot exceed 1000"⟩] else []) ++
  (match e.weight with
   | none => []
   | some v =>
     (if v < 0 then [⟨fld "weight", "Weight cannot be negative"⟩] else []) ++
     (if 1000 < v then [⟨fld "weight", "Weight cannot exceed 1000kg"⟩] else [])) ++
  (match e.duration with
   | none => []
   | some v =>
     (if v < 0 then [⟨fld "duration", "Duration cannot be negative"⟩] else []) ++
     (if 480 < v then [⟨fld "duration", "Duration cannot exceed 8 hours"⟩] else [])) ++
  (match e.restTime with
   | none => []
   | some v =>
     (if v < 0 then [⟨fld "restTime", "Rest time cannot be negative"⟩] else []) ++
     (if 600 < v then [⟨fld "restTime", "Rest time cannot exceed 10 minutes"⟩] else []))

/-- `validateData(workoutSchema, w)` (`utils/validation.ts` 64-70):
object fields in definition order; the array schema reports its `min(1)`
violation before element issues. -/
def validateWorkout (w : WorkoutInput) : List ValidationError :=
  (match w.name with
   | none => [⟨"name", "Required"⟩]
   | some s =>
     (if s.length < 1 then [⟨"name", "Workout name is required"⟩] else []) ++
     (if 100 < s.length then [⟨"name", "Workout name too long"⟩] else [])) ++
  (match w.exercises with
   | none => [⟨"exercises", "Required"⟩]
   | some xs =>
     (if xs.length < 1 then [⟨"exercises", "At least one exercise is required"⟩] else []) ++
     (xs.enum.map (fun p => exerciseErrors p.1 p.2)).flatten) ++
  (match w.notes with
   | none => []
   | some s => if 500 < s.length then [⟨"notes", "Notes cannot exceed 500 characters"⟩] else []) ++
  (match w.category with
   | none => []
   | some s => if 50 < s.length then [⟨"category", "Category name too long"⟩] else [])

/-- `addWorkout` (`App.tsx` 2849-2876): validate the raw input, throw the
first error message, otherwise build
`{ id: uid(), date: today, completed: false, exercises: [], createdAt,
updatedAt, ...w }` and prepend it to `workouts`. -/
def addWorkout (newId : String) (today : ℤ) (now : String) (w : WorkoutInput)
    (d : AppData) : Except String Workout × AppData :=
  match validateWorkout w with
  | e :: _ => (Except.error e.message, d)
  | [] =>
    let workout : Workout :=
      { id := w.id.getD newId
        name := w.name
        date := w.date.getD today
        exercises := w.exercises.getD []
        completed := w.completed.getD false
        clientId := w.clientId
        trainerId := w.trainerId
        notes := w.notes
        difficulty := w.difficulty
        category := w.category
        createdAt := some (w.createdAt.getD now)
        updatedAt := some (w.updatedAt.getD now) }
    (Except.ok workout, { d with workouts := workout :: d.workouts })

/-- Spread of `{ ...updates, updatedAt: now }` over a stored workout,
as in `updateWorkout` (`App.tsx` 2878-2890). -/
def mergeWorkout (w : Workout) (u : WorkoutInput) (now : String) : Workout :=
  { id := u.id.getD w.id
    name := patchField u.name w.name
    date := u.date.getD w.date
    exercises := u.exercises.getD w.exercises
    completed := u.completed.getD w.completed
    clientId := patchField u.clientId w.clientId
    trainerId := patchField u.trainerId w.trainerId
    notes := patchField u.notes w.notes
    difficulty := patchField u.difficulty w.difficulty
    category := patchField u.category w.category
    createdAt := patchField u.createdAt w.createdAt
    updatedAt := some now }

/-- `updateWorkout` (`App.tsx` 2878-2890): linear `map` patching the
matching id. -/
def updateWorkout (now : String) (id : String) (updates : WorkoutInput)
    (d : AppData) : AppData :=
  { d with workouts := d.workouts.map (fun w =>
      if w.id = id then mergeWorkout w updates now else w) }

/-- `deleteWorkout` (`App.tsx` 2892-2900): `filter(w => w.id !== id)`. -/
def deleteWorkout (id : String) (d : AppData) : AppData :=
  { d with workouts := d.workouts.filter (fun w => !(w.id = id)) }

/-- `Partial<Meal>` as passed to `updateMeal` (every field optional). -/
structure MealPatch where
  id : Option String
  name : Option String
  type : Option MealType
  calories : Option ℚ
  protein : Option ℚ
  carbs : Option ℚ
  fat : Option ℚ
  date : Option ℤ
  userId : Option String
deriving DecidableEq

/-- Spread of `{ ...m, ...updates }` in `updateMeal`. -/
def mergeMeal (m : Meal) (u : MealPatch) : Meal :=
  { id := u.id.getD m.id
    name := patchField u.name m.name
    type := u.type.getD m.type
    calories := u.calories.getD m.calories
    protein := u.protein.getD m.protein
    carbs := u.carbs.getD m.carbs
    fat := u.fat.getD m.fat
    date := u.date.getD m.date
    userId := patchField u.userId m.userId }

/-- `updateMeal` (`App.tsx` 2926-2937). -/
def updateMeal (id : String) (updates : MealPatch) (d : AppData) : AppData :=
  { d with meals := d.meals.map (fun m =>
      if m.id = id then mergeMeal m updates else m) }

/-- `deleteMeal` (`App.tsx` 2939-2947). -/
def deleteMeal (id : String) (d : AppData) : AppData :=
  { d with meals := d.meals.filter (fun m => !(m.id = id)) }

/-- Spread of `{ ...p, ...updates }` in `updateProgressEntry`. -/
def mergeProgress (p : ProgressEntry) (u : ProgressInput) : ProgressEntry :=
  { id := u.id.getD p.id
    date := u.date.getD p.date
    weight := patchField u.weight p.weight
    bodyFat := patchField u.bodyFat p.bodyFat
    muscle := patchField u.muscle p.muscle
    userId := patchField u.userId p.userId }

/-- `updateProgressEntry` (`App.tsx` 3012-3023). -/
def updateProgressEntry (id : String) (updates : ProgressInput) (d : AppData) :
    AppData :=
  { d with progress := d.progress.map (fun p =>
      if p.id = id then mergeProgress p updates else p) }

/-- `deleteProgressEntry` (`App.tsx` 3025-3033). -/
def deleteProgressEntry (id : String) (d : AppData) : AppData :=
  { d with progress := d.progress.filter (fun p => !(p.id = id)) }

/-- One row of the current Dashboard's `weeklyStats` chart. -/
structure DayStat where
  day : ℤ
  workouts : ℕ
  calories : ℤ
deriving DecidableEq

/-- Current Dashboard `weeklyStats` (`App.tsx` 3648-3674): for each of
the trailing seven days, completed workouts owned by the viewer, the
viewer's meals, and `Math.round(totalCalories / 100)`. -/
def weeklyStats (today : ℤ) (user : User) (workouts : List Workout)
    (meals : List Meal) : List DayStat :=
  (last7Days today).map (fun date =>
    let dayWorkouts := workouts.filter (fun w =>
      w.date = date && w.completed && ownsWorkout user w)
    let dayMeals := meals.filter (fun m =>
      m.date = date && m.userId = some user.id)
    { day := date
      workouts := dayWorkouts.length
      calories := jsRound (sumCalories dayMeals / 100) })

end App2

/-! ### Concrete fixtures used by witnesses and counterexamples -/

/-- A valid exercise `{name: "Push-ups", sets: 3, reps: 10}`. -/
def exPushups : WorkoutExercise := ⟨"Push-ups", 3, 10, none, none, none⟩

/-- A completed workout of client `c1` dated day 0. -/
def wDone : Workout :=
  ⟨"w1", some "Morning Strength", 0, [exPushups], true, some "c1", none,
    none, none, none, none, none⟩

/-- A pending workout of client `c1`. -/
def wTodo : Workout :=
  ⟨"w2", some "Evening Cardio", 0, [], false, some "c1", none, none, none,
    none, none, none⟩

/-- A completed workout of a different client `c2`, dated day 0. -/
def wOther : Workout :=
  ⟨"w9", some "Other Client Session", 0, [], true, some "c2", none, none,
    none, none, none, none⟩

/-- A client viewer with id `c1`. -/
def vClient : User :=
  ⟨"c1", UserRole.client, "Viewer Client", "viewer@fit.app", some "Viewer1!",
    some "trainer-1", none, none, some true, none⟩

/-- A 250-calorie meal of user `c1` dated day 0. -/
def mViewer : Meal :=
  ⟨"m1", some "Oatmeal", MealType.breakfast, 250, 10, 40, 5, 0, some "c1"⟩

/-- A message fixture. -/
def msgHello : Message := ⟨"g1", some "c1", some "trainer-1", some "Hello", "ts0", false⟩

/-- The newest progress entry (80 kg, day 0). -/
def peNew : ProgressEntry := ⟨"p1", 0, some 80, none, none, some "c1"⟩

/-- The oldest progress entry (85 kg, 30 days earlier). -/
def peOld : ProgressEntry := ⟨"p0", -30, some 85, none, none, some "c1"⟩

/-- A populated snapshot fixture. -/
def d0 : AppData := ⟨[wDone, wTodo], [mViewer], [msgHello], [peNew, peOld]⟩

/-- The current variant's seeded trainer account. -/
def uTrainer : User :=
  ⟨"trainer-1", UserRole.trainer, "Alex Johnson", "trainer@fit.app",
    some "trainer123", none, some "+1 (555) 123-4567", some "2024-01-15",
    some true, none⟩

/-- The current variant's seeded client account. -/
def uClient : User :=
  ⟨"client-1", UserRole.client, "Sarah Wilson", "client@fit.app",
    some "client123", some "trainer-1", some "+1 (555) 987-6543",
    some "2024-02-01", some true, none⟩

/-- The current variant's seeded users collection. -/
def seedUsers : List User := [uTrainer, uClient]

/-- An existing user whose stored (lower-case) email is `a@b.com`. -/
def uExisting : User :=
  ⟨"u0", UserRole.trainer, "Existing Trainer", "a@b.com", some "Oldpass1!",
    none, none, none, some true, none⟩

/-- A fully valid registration payload whose email `A@B.com` equals the
stored `a@b.com` up to letter case. -/
def dupPayload : RegisterPayload :=
  ⟨"John Doe", "A@B.com", "Secret1!", "Secret1!", none, UserRole.client⟩

/-- The user `register` builds from `dupPayload` against `[uExisting]`. -/
def newUser0 : User :=
  ⟨"u1", UserRole.client, "John Doe", "a@b.com", some "Secret1!", some "u0",
    none, some "2024-01-01", some true, none⟩

/-- A workout input with a name but an empty exercises list. -/
def wEmptyEx : WorkoutInput :=
  ⟨none, some "Bench Day", none, some [], none, none, none, none, none,
    none, none, none⟩

/-- A workout patch fixture. -/
def wPatch0 : WorkoutInput :=
  ⟨none, some "Renamed Workout", none, none, none, none, none, none, none,
    none, none, none⟩

/-- A meal patch fixture. -/
def mPatch0 : App2.MealPatch :=
  ⟨none, some "Renamed Meal", none, none, none, none, none, none, none⟩

/-- A progress patch fixture. -/
def pPatch0 : ProgressInput := ⟨none, none, some 79, none, none, none⟩

/-! ### Claim theorems -/

/-- Rounding-to-nearest: `jsRound` is within a half of its argument. -/
theorem jsRound_close (q : ℚ) : |(jsRound q : ℚ) - q| ≤ 1 / 2 := by
  unfold jsRound
  have h1 : ((⌊q + 1 / 2⌋ : ℤ) : ℚ) ≤ q + 1 / 2 := Int.floor_le _
  have h2 : q + 1 / 2 - 1 < ((⌊q + 1 / 2⌋ : ℤ) : ℚ) := Int.sub_one_lt_floor _
  rw [abs_le]
  constructor <;> linarith

/-- C5: the completion rate is `0` for an empty workout list, and
otherwise an integer within one half of
`completedWorkouts / totalWorkouts × 100` (i.e. that ratio rounded to a
nearest integer); it is always defined. -/
theorem claim_C5_completion_rate (ws : List Workout) :
    (ws.length = 0 → completionRate ws = 0) ∧
    (ws.length ≠ 0 →
      |(completionRate ws : ℚ) -
          ((ws.filter (fun w => w.completed)).length : ℚ) * 100 / (ws.length : ℚ)| ≤
        1 / 2) := by
  constructor
  · intro h
    simp [completionRate, h]
  · intro h
    have hl : 0 < ws.length := Nat.pos_of_ne_zero h
    have heq : (((ws.filter (fun w => w.completed)).length : ℚ) / (ws.length : ℚ)) * 100 =
        ((ws.filter (fun w => w.completed)).length : ℚ) * 100 / (ws.length : ℚ) := by
      ring
    simp only [completionRate, if_pos hl]
    rw [← heq]
    exact jsRound_close _

/-- Witness for C5 at the empty list and at a two-element list with one
completed workout. -/
theorem claim_C5_witness :
    ([] : List Workout).length = 0 ∧ completionRate [] = 0 ∧
    [wDone, wTodo].length ≠ 0 ∧
    |(completionRate [wDone, wTodo] : ℚ) -
        (([wDone, wTodo].filter (fun w => w.completed)).length : ℚ) * 100 /
          (([wDone, wTodo] : List Workout).length : ℚ)| ≤ 1 / 2 :=
  ⟨rfl, (claim_C5_completion_rate []).1 rfl, by simp,
    (claim_C5_completion_rate [wDone, wTodo]).2 (by simp)⟩

/-- A linear-scan update whose key matches no element is the identity. -/
theorem map_update_eq_self {α : Type} (l : List α) (key : α → String)
    (id : String) (f : α → α) (h : ∀ x ∈ l, key x ≠ id) :
    (l.map fun x => if key x = id then f x else x) = l := by
  induction l with
  | nil => rfl
  | cons a t ih =>
    simp only [List.map_cons]
    rw [if_neg (h a (by simp)), ih (fun x hx => h x (by simp [hx]))]

/-- A linear-scan delete whose key matches no element is the identity. -/
theorem filter_ne_eq_self {α : Type} (l : List α) (key : α → String)
    (id : String) (h : ∀ x ∈ l, key x ≠ id) :
    (l.filter fun x => !(key x = id)) = l := by
  apply List.filter_eq_self.mpr
  intro a ha
  simpa using h a ha

/-- C7: when an id occurs in none of the relevant collections, each
update/delete operation of the current data provider returns the snapshot
unchanged (every collection, including the untouched ones) and signals
no failure (the operations are total). -/
theorem claim_C7_absent_id_noop (d : AppData) (id now : String)
    (uw : WorkoutInput) (um : App2.MealPatch) (up : ProgressInput) :
    ((∀ w ∈ d.workouts, w.id ≠ id) →
      App2.updateWorkout now id uw d = d ∧ App2.deleteWorkout id d = d) ∧
    ((∀ m ∈ d.meals, m.id ≠ id) →
      App2.updateMeal id um d = d ∧ App2.deleteMeal id d = d) ∧
    ((∀ p ∈ d.progress, p.id ≠ id) →
      App2.updateProgressEntry id up d = d ∧ App2.deleteProgressEntry id d = d) := by
  obtain ⟨ws, ms, msgs, ps⟩ := d
  refine ⟨fun h => ⟨?_, ?_⟩, fun h => ⟨?_, ?_⟩, fun h => ⟨?_, ?_⟩⟩
  · simp only [App2.updateWorkout]
    rw [map_update_eq_self ws (fun w => w.id) id _ h]
  · simp only [App2.deleteWorkout]
    rw [filter_ne_eq_self ws (fun w => w.id) id h]
  · simp only [App2.updateMeal]
    rw [map_update_eq_self ms (fun m => m.id) id _ h]
  · simp only [App2.deleteMeal]
    rw [filter_ne_eq_self ms (fun m => m.id) id h]
  · simp only [App2.updateProgressEntry]
    rw [map_update_eq_self ps (fun p => p.id) id _ h]
  · simp only [App2.deleteProgressEntry]
    rw [filter_ne_eq_self ps (fun p => p.id) id h]

/-- Witness for C7: on the populated snapshot `d0`, the id `"nope"` is
absent from every collection and all six operations leave `d0` intact. -/
theorem claim_C7_witness :
    (∀ w ∈ d0.workouts, w.id ≠ "nope") ∧
    (∀ m ∈ d0.meals, m.id ≠ "nope") ∧
    (∀ p ∈ d0.progress, p.id ≠ "nope") ∧
    App2.updateWorkout "t9" "nope" wPatch0 d0 = d0 ∧
    App2.deleteWorkout "nope" d0 = d0 ∧
    App2.updateMeal "nope" mPatch0 d0 = d0 ∧
    App2.deleteMeal "nope" d0 = d0 ∧
    App2.updateProgressEntry "nope" pPatch0 d0 = d0 ∧
    App2.deleteProgressEntry "nope" d0 = d0 :=
  ⟨by decide, by decide, by decide,
    ((claim_C7_absent_id_noop d0 "nope" "t9" wPatch0 mPatch0 pPatch0).1 (by decide)).1,
    ((claim_C7_absent_id_noop d0 "nope" "t9" wPatch0 mPatch0 pPatch0).1 (by decide)).2,
    ((claim_C7_absent_id_noop d0 "nope" "t9" wPatch0 mPatch0 pPatch0).2.1 (by decide)).1,
    ((claim_C7_absent_id_noop d0 "nope" "t9" wPatch0 mPatch0 pPatch0).2.1 (by decide)).2,
    ((claim_C7_absent_id_noop d0 "nope" "t9" wPatch0 mPatch0 pPatch0).2.2 (by decide)).1,
    ((claim_C7_absent_id_noop d0 "nope" "t9" wPatch0 mPatch0 pPatch0).2.2 (by decide)).2⟩

/-- C3: a create whose exercises list is empty always fails validation
with the error "At least one exercise is required"; `addWorkout` throws
(the first validation message) and the snapshot is returned unchanged. -/
theorem claim_C3_empty_exercises_rejected (newId : String) (today : ℤ)
    (now : String) (w : WorkoutInput) (d : AppData)
    (h : w.exercises = some []) :
    ValidationError.mk "exercises" "At least one exercise is required" ∈ App2.validateWorkout w ∧
    (∃ msg, (App2.addWorkout newId today now w d).1 = Except.error msg) ∧
    (App2.addWorkout newId today now w d).2 = d := by
  have hmem :
      ValidationError.mk "exercises" "At least one exercise is required" ∈ App2.validateWorkout w := by
    unfold App2.validateWorkout
    rw [h]
    simp
  refine ⟨hmem, ?_, ?_⟩
  · cases hv : App2.validateWorkout w with
    | nil => rw [hv] at hmem; exact absurd hmem (List.not_mem_nil _)
    | cons e rest => exact ⟨e.message, by simp [App2.addWorkout, hv]⟩
  · cases hv : App2.validateWorkout w with
    | nil => rw [hv] at hmem; exact absurd hmem (List.not_mem_nil _)
    | cons e rest => simp [App2.addWorkout, hv]

/-- Witness for C3 at a concrete input with a valid name and `exercises
= []`, on the populated snapshot `d0`. -/
theorem claim_C3_witness :
    wEmptyEx.exercises = some [] ∧
    (ValidationError.mk "exercises" "At least one exercise is required" ∈
        App2.validateWorkout wEmptyEx ∧
      (∃ msg, (App2.addWorkout "n1" 0 "t0" wEmptyEx d0).1 = Except.error msg) ∧
      (App2.addWorkout "n1" 0 "t0" wEmptyEx d0).2 = d0) :=
  ⟨rfl, claim_C3_empty_exercises_rejected "n1" 0 "t0" wEmptyEx d0 rfl⟩

/-- C2 (code bug): with `a@b.com` already stored, registering the fully
valid payload `A@B.com` passes validation, slips through the duplicate
check (which compares the raw input against lower-cased stored emails),
and inserts a second user stored with the very same email `a@b.com`
instead of failing with the duplicate-email error. -/
theorem claim_C2_duplicate_check_misses_case :
    validateRegistration dupPayload = [] ∧
    App2.register "u1" "2024-01-01" dupPayload [uExisting] =
      Except.ok (newUser0, [newUser0, uExisting]) ∧
    newUser0.email = uExisting.email ∧
    App2.register "u1" "2024-01-01" dupPayload [uExisting] ≠
      Except.error "Email already exists" := by
  refine ⟨by decide, rfl, by decide, ?_⟩
  intro hcontra
  have hok : App2.register "u1" "2024-01-01" dupPayload [uExisting] =
      Except.ok (newUser0, [newUser0, uExisting]) := rfl
  rw [hok] at hcontra
  exact absurd hcontra (by simp)

/-- C4 counterexample: with an empty email no user matches both fields,
yet `login` fails with the missing-fields message rather than
`"Invalid credentials"`. -/
theorem claim_C4_cex_empty_email :
    (∀ u ∈ seedUsers,
      ¬(jsToLower u.email = jsToLower "" ∧ u.password = some "x")) ∧
    App2.login "" "x" seedUsers "tok" "now" =
      Except.error "Email and password are required" ∧
    App2.login "" "x" seedUsers "tok" "now" ≠
      Except.error "Invalid credentials" := by
  refine ⟨by decide, rfl, ?_⟩
  intro hcontra
  have hok : App2.login "" "x" seedUsers "tok" "now" =
      Except.error "Email and password are required" := rfl
  rw [hok] at hcontra
  simp at hcontra

/-- C4 (amended): `login` first rejects an empty email or password with
"Email and password are required"; with both nonempty it fails with
"Invalid credentials" when no user matches the email (case-insensitively)
and password, fails with "Account is deactivated" when the first matching
user is not active, and otherwise authenticates with the fresh token and
stamps that user's `lastLogin`. -/
theorem claim_C4_login_behaviour (users : List User)
    (email password token now : String) :
    (email = "" ∨ password = "" →
      App2.login email password users token now =
        Except.error "Email and password are required") ∧
    (email ≠ "" → password ≠ "" →
      (∀ u ∈ users, ¬(jsToLower u.email = jsToLower email ∧ u.password = some password)) →
      App2.login email password users token now =
        Except.error "Invalid credentials") ∧
    (∀ u : User, email ≠ "" → password ≠ "" →
      users.find? (fun x =>
        jsToLower x.email = jsToLower email && x.password = some password) = some u →
      u.isActive ≠ some true →
      App2.login email password users token now =
        Except.error "Account is deactivated") ∧
    (∀ u : User, email ≠ "" → password ≠ "" →
      users.find? (fun x =>
        jsToLower x.email = jsToLower email && x.password = some password) = some u →
      u.isActive = some true →
      App2.login email password users token now =
        Except.ok (⟨u.id, token⟩,
          users.map (fun x =>
            if x.id = u.id then { x with lastLogin := some now } else x))) := by
  refine ⟨?_, ?_, ?_, ?_⟩
  · rintro (he | hp)
    · simp [App2.login, he]
    · simp [App2.login, hp]
  · intro he hp hno
    have hfind : users.find? (fun x =>
        jsToLower x.email = jsToLower email && x.password = some password) = none := by
      rw [List.find?_eq_none]
      intro u hu
      simpa using hno u hu
    simp [App2.login, he, hp, hfind]
  · intro u he hp hfind hact
    simp [App2.login, he, hp, hfind, hact]
  · intro u he hp hfind hact
    simp [App2.login, he, hp, hfind, hact]

/-- Witness for C4 at the seeded trainer's credentials: a successful
login issuing the fresh token and stamping `lastLogin`. -/
theorem claim_C4_witness :
    App2.login "trainer@fit.app" "trainer123" seedUsers "tok1" "now1" =
      Except.ok (⟨uTrainer.id, "tok1"⟩,
        seedUsers.map (fun x =>
          if x.id = uTrainer.id then { x with lastLogin := some "now1" } else x)) :=
  (claim_C4_login_behaviour seedUsers "trainer@fit.app" "trainer123" "tok1"
    "now1").2.2.2 uTrainer (by decide) (by decide) (by decide) rfl

/-- C10: every legacy create prepends its new entity and leaves the other
collections (and the previous entities) untouched, so each collection is
ordered newest-first; accordingly the Stats page reads `progress[0]` as
the most recent entry and `progress[length - 1]` as the oldest when it
computes the weight change. -/
theorem claim_C10_prepend_newest_first (newId : String) (today : ℤ)
    (now : String) (w : WorkoutInput) (m : MealInput) (msg : MessageInput)
    (e : ProgressInput) (d : AppData) (newest oldest : ProgressEntry)
    (mid : List ProgressEntry) :
    (App1.addWorkout newId today w d).2 =
      { d with workouts := (App1.addWorkout newId today w d).1 :: d.workouts } ∧
    (App1.logMeal newId today m d).2 =
      { d with meals := (App1.logMeal newId today m d).1 :: d.meals } ∧
    (App1.sendMessage newId now msg d).2 =
      { d with messages := (App1.sendMessage newId now msg d).1 :: d.messages } ∧
    (App1.addProgressEntry newId today e d).2 =
      { d with progress := (App1.addProgressEntry newId today e d).1 :: d.progress } ∧
    App1.currentWeight (newest :: mid ++ [oldest]) = newest.weight ∧
    App1.oldestWeight (newest :: mid ++ [oldest]) = oldest.weight := by
  refine ⟨rfl, rfl, rfl, rfl, rfl, ?_⟩
  unfold App1.oldestWeight
  have hlen : 1 < (newest :: mid ++ [oldest]).length := by
    simp [List.length_append]
  rw [if_pos hlen]
  have hlast : (newest :: mid ++ [oldest]).getLast? = some oldest := by
    rw [show newest :: mid ++ [oldest] = (newest :: mid) ++ [oldest] from rfl]
    exact List.getLast?_concat _
  rw [hlast]
  rfl

/-- The trailing-seven-days list spelled out: oldest first, ending today. -/
theorem last7Days_eq (today : ℤ) :
    last7Days today =
      [today - 6, today - 5, today - 4, today - 3, today - 2, today - 1, today] := by
  unfold last7Days
  norm_num [List.range_succ]

/-- C1 (amended): both weekly derivations return exactly seven entries,
one per trailing calendar day ending today, oldest first.  The current
Dashboard's `weeklyStats` counts completed workouts owned by the viewer
and carries the viewer's same-day meal-calorie sum scaled by
`Math.round(total / 100)` (not the raw sum); the legacy Stats page's
`weeklyActivity` applies no viewer filter at all and likewise scales the
calorie sum by `Math.round(total / 100)`. -/
theorem claim_C1_weekly_activity_shape (today : ℤ) (user : User)
    (workouts : List Workout) (meals : List Meal) :
    (App2.weeklyStats today user workouts meals).length = 7 ∧
    App2.weeklyStats today user workouts meals =
      [today - 6, today - 5, today - 4, today - 3, today - 2, today - 1,
        today].map (fun day =>
          ⟨day,
            workouts.countP (fun w =>
              w.date = day && w.completed && ownsWorkout user w),
            jsRound (sumCalories (meals.filter (fun m =>
              m.date = day && m.userId = some user.id)) / 100)⟩) ∧
    (App1.weeklyActivity today workouts meals).length = 7 ∧
    App1.weeklyActivity today workouts meals =
      [today - 6, today - 5, today - 4, today - 3, today - 2, today - 1,
        today].map (fun day =>
          ⟨day,
            workouts.countP (fun w => w.date = day && w.completed),
            jsRound (sumCalories (meals.filter (fun m => m.date = day)) / 100),
            (meals.filter (fun m => m.date = day)).length⟩) := by
  refine ⟨?_, ?_, ?_, ?_⟩
  · simp [App2.weeklyStats, last7Days_eq]
  · rw [App2.weeklyStats, last7Days_eq]
    simp [List.countP_eq_length_filter]
  · simp [App1.weeklyActivity, last7Days_eq]
  · rw [App1.weeklyActivity, last7Days_eq]
    simp [List.countP_eq_length_filter]

/-- C1 counterexample: on day 0 the snapshot holds one completed workout
of another client and one 250-calorie meal of the viewer.  The legacy
`weeklyActivity` counts the foreign workout (1, though the viewer owns 0
completed workouts that day), and the viewer-filtered `weeklyStats`
reports `3` calories — `Math.round(250 / 100)` — not the claimed sum
`250`. -/
theorem claim_C1_cex_not_viewer_sum :
    ((App1.weeklyActivity 0 [wOther] [mViewer])[6]?).map
        App1.DayActivity.workouts = some 1 ∧
    ([wOther].filter (fun w =>
        w.date = 0 && w.completed && ownsWorkout vClient w)).length = 0 ∧
    ((App2.weeklyStats 0 vClient [wOther] [mViewer])[6]?).map
        App2.DayStat.calories = some 3 ∧
    sumCalories ([mViewer].filter (fun m =>
        m.date = 0 && m.userId = some vClient.id)) = 250 ∧
    (3 : ℤ) ≠ 250 := by
  have hfil : [mViewer].filter (fun m =>
      m.date = 0 && m.userId = some vClient.id) = [mViewer] := by decide
  have hsum : sumCalories ([mViewer].filter (fun m =>
      m.date = 0 && m.userId = some vClient.id)) = 250 := by
    rw [hfil]
    simp [sumCalories, mViewer]
  refine ⟨by decide, by decide, ?_, hsum, by decide⟩
  have hentry : ((App2.weeklyStats 0 vClient [wOther] [mViewer])[6]?).map
      App2.DayStat.calories =
      some (jsRound (sumCalories ([mViewer].filter (fun m =>
        m.date = 0 && m.userId = some vClient.id)) / 100)) := rfl
  rw [hentry, hsum]
  have : jsRound ((250 : ℚ) / 100) = 3 := by
    unfold jsRound
    have h3 : (250 : ℚ) / 100 + 1 / 2 = 3 := by norm_num
    rw [h3]
    exact Int.floor_intCast 3
  rw [this]
